import Mathlib

/-!
Verification of `FourParameterCorrelationModel.cpp` (CSM four-parameter
correlation model).  The C++ class is shallowly embedded: `double` becomes
`ℝ`, `size_t` becomes `ℕ`, the `std::vector` members become `List`s, and a
thrown `csm::Error` becomes an explicit error value (`Except`/`Option`),
returned before any mutation exactly where the C++ throws.
-/

namespace csm

/-- Embeds `csm::Error::ErrorType` (only the two kinds this file uses):
`BOUNDS` and `INDEX_OUT_OF_RANGE`. -/
inductive ErrorType where
  | BOUNDS
  | INDEX_OUT_OF_RANGE
deriving DecidableEq

/-- Embeds `csm::Error`: an error kind plus the message and the function
name passed to the constructor at the throw site. -/
structure Error where
  errorType : ErrorType
  message : String
  function : String
deriving DecidableEq

/-- Embeds `FourParameterCorrelationModel::Parameters`: the tuple
(a, alpha, beta, tau) of correlation curve parameters, as reals. -/
structure Parameters where
  a : ℝ
  alpha : ℝ
  beta : ℝ
  tau : ℝ

/-- Modelled from the spec: the `Parameters` default constructor lives in
`FourParameterCorrelationModel.h` (not part of the sources here); per the
spec a default-constructed instance is all zeros. -/
def defaultParameters : Parameters := ⟨0, 0, 0, 0⟩

/-- Embeds the state of a `FourParameterCorrelationModel` object: the two
vector members `theGroupMapping` (entries are C++ `int`, hence `ℤ`, with
`-1` the "unassigned" sentinel) and `theCorrParams`, plus the base-class
format string set by the constructor. -/
structure FourParameterCorrelationModel where
  theGroupMapping : List ℤ
  theCorrParams : List Parameters
  theFormat : String

/-- Embeds the constructor (source lines 57-65).  Note the source
initializer list reads `theCorrParams(numSMParams)`: the second argument
`numCPGroups` is never used, so `theCorrParams` also gets `numSMParams`
entries.  The embedding reproduces this faithfully. -/
def construct (numSMParams numCPGroups : ℕ) : FourParameterCorrelationModel :=
  ⟨List.replicate numSMParams (-1),
   List.replicate numSMParams defaultParameters,
   "Four-parameter model (A, alpha, beta, tau)"⟩

/-- Embeds `getNumSensorModelParameters` (lines 71-74). -/
def getNumSensorModelParameters (m : FourParameterCorrelationModel) : ℕ :=
  m.theGroupMapping.length

/-- Embeds `getNumCorrelationParameterGroups` (lines 76-79). -/
def getNumCorrelationParameterGroups (m : FourParameterCorrelationModel) : ℕ :=
  m.theCorrParams.length

/-- Embeds `checkSensorModelParameterIndex` (lines 183-192): returns the
error the C++ code would throw, if any. -/
def checkSensorModelParameterIndex (m : FourParameterCorrelationModel)
    (smParamIndex : ℕ) (functionName : String) : Option Error :=
  if m.theGroupMapping.length ≤ smParamIndex then
    some ⟨ErrorType.INDEX_OUT_OF_RANGE,
          "Sensor model parameter index is out of range.",
          String.append "csm::FourParameterCorrelationModel::" functionName⟩
  else none

/-- Embeds `checkParameterGroupIndex` (lines 194-203). -/
def checkParameterGroupIndex (m : FourParameterCorrelationModel)
    (groupIndex : ℕ) (functionName : String) : Option Error :=
  if m.theCorrParams.length ≤ groupIndex then
    some ⟨ErrorType.INDEX_OUT_OF_RANGE,
          "Correlation parameter group index is out of range.",
          String.append "csm::FourParameterCorrelationModel::" functionName⟩
  else none

/-- Embeds `getCorrelationParameterGroup` (lines 81-88): check the index,
then read the mapping entry. -/
def getCorrelationParameterGroup (m : FourParameterCorrelationModel)
    (smParamIndex : ℕ) : Except Error ℤ :=
  match checkSensorModelParameterIndex m smParamIndex "getCorrelationParameterGroup" with
  | some e => Except.error e
  | none => Except.ok (m.theGroupMapping.getD smParamIndex 0)

/-- Embeds `setCorrelationParameterGroup` (lines 90-99).  A thrown error
leaves the object as it was at entry (both throws precede the write), so
the embedding returns the entry state paired with the error. -/
def setCorrelationParameterGroup (m : FourParameterCorrelationModel)
    (smParamIndex cpGroupIndex : ℕ) :
    FourParameterCorrelationModel × Option Error :=
  match checkSensorModelParameterIndex m smParamIndex "setCorrelationParameterGroup" with
  | some e => (m, some e)
  | none =>
    match checkParameterGroupIndex m cpGroupIndex "setCorrelationParameterGroup" with
    | some e => (m, some e)
    | none =>
      (⟨m.theGroupMapping.set smParamIndex (cpGroupIndex : ℤ),
        m.theCorrParams, m.theFormat⟩, none)

/-- The MODULE string of `setCorrelationGroupParameters` (lines 110-111). -/
def setCGPModule : String := "csm::FourParameterCorrelationModel::setCorrelationGroupParameters"

/-- The error thrown for parameter `a` out of bounds (lines 117-122). -/
def boundsErrorA : Error :=
  ⟨ErrorType.BOUNDS, "Correlation parameter A must be in the range [-1, 1].", setCGPModule⟩

/-- The error thrown for parameter `alpha` out of bounds (lines 124-129). -/
def boundsErrorAlpha : Error :=
  ⟨ErrorType.BOUNDS, "Correlation parameter alpha must be in the range [0, 1].", setCGPModule⟩

/-- The error thrown for parameter `beta` out of bounds (lines 131-136). -/
def boundsErrorBeta : Error :=
  ⟨ErrorType.BOUNDS, "Correlation parameter beta must be non-negative.", setCGPModule⟩

/-- The error thrown for parameter `tau` out of bounds (lines 138-143). -/
def boundsErrorTau : Error :=
  ⟨ErrorType.BOUNDS, "Correlation parameter tau must be positive.", setCGPModule⟩

/-- Embeds `setCorrelationGroupParameters` (lines 101-147): index check,
then the four bound checks in source order, each throw occurring before
the single write at line 146. -/
noncomputable def setCorrelationGroupParameters (m : FourParameterCorrelationModel)
    (cpGroupIndex : ℕ) (params : Parameters) :
    FourParameterCorrelationModel × Option Error :=
  match checkParameterGroupIndex m cpGroupIndex "setCorrelationGroupParameters" with
  | some e => (m, some e)
  | none =>
    if params.a < 0 ∨ params.a > 1 then (m, some boundsErrorA)
    else if params.alpha < 0 ∨ params.alpha > 1 then (m, some boundsErrorAlpha)
    else if params.beta < 0 ∨ params.beta > 10 then (m, some boundsErrorBeta)
    else if params.tau ≤ 0 then (m, some boundsErrorTau)
    else (⟨m.theGroupMapping, m.theCorrParams.set cpGroupIndex params, m.theFormat⟩, none)

/-- Embeds `getCorrelationGroupParameters` (lines 174-181). -/
def getCorrelationGroupParameters (m : FourParameterCorrelationModel)
    (cpGroupIndex : ℕ) : Except Error Parameters :=
  match checkParameterGroupIndex m cpGroupIndex "getCorrelationGroupParameters" with
  | some e => Except.error e
  | none => Except.ok (m.theCorrParams.getD cpGroupIndex defaultParameters)

/-- Embeds `getCorrelationCoefficient` (lines 149-172): index check, the
four-parameter curve evaluated at `|deltaTime|`, then the clamp to
[-1, 1] written as the source's if/else-if. -/
noncomputable def getCorrelationCoefficient (m : FourParameterCorrelationModel)
    (cpGroupIndex : ℕ) (deltaTime : ℝ) : Except Error ℝ :=
  match checkParameterGroupIndex m cpGroupIndex "getCorrelationCoefficient" with
  | some e => Except.error e
  | none =>
    let cp := m.theCorrParams.getD cpGroupIndex defaultParameters
    let corrCoeff := cp.a * (cp.alpha + ((1 - cp.alpha) * (1 + cp.beta) /
                      (cp.beta + Real.exp (|deltaTime| / cp.tau))))
    Except.ok (if corrCoeff < -1 then -1 else if corrCoeff > 1 then 1 else corrCoeff)

/-- Spec-side definition, for comparison with the code: the correlation
curve `rho = a * (alpha + ((1 - alpha) * (1 + beta) / (beta + exp(|deltaTime| / tau))))`
exactly as written in the spec. -/
noncomputable def spec_rho (cp : Parameters) (deltaTime : ℝ) : ℝ :=
  cp.a * (cp.alpha + ((1 - cp.alpha) * (1 + cp.beta) /
    (cp.beta + Real.exp (|deltaTime| / cp.tau))))

/-- Spec-side definition, for comparison with the code: "clamped into
[-1, 1]". -/
noncomputable def spec_clamp (c : ℝ) : ℝ := max (-1) (min 1 c)

/-- `true` exactly when the optional error is an `INDEX_OUT_OF_RANGE`
(spec name: OutOfRange) failure. -/
def isOutOfRangeFailure : Option Error → Bool
  | some e => e.errorType = ErrorType.INDEX_OUT_OF_RANGE
  | none => false

/-- `true` exactly when the result is an `INDEX_OUT_OF_RANGE` (spec name:
OutOfRange) failure. -/
def isOutOfRangeResult {α : Type} : Except Error α → Bool
  | Except.error e => e.errorType = ErrorType.INDEX_OUT_OF_RANGE
  | Except.ok _ => false

/-- `true` exactly when the optional error is a `BOUNDS` (spec name:
InvalidBounds) failure. -/
def isBoundsFailure : Option Error → Bool
  | some e => e.errorType = ErrorType.BOUNDS
  | none => false

/-- The mapping invariant: every entry of `theGroupMapping` is either the
"unassigned" sentinel `-1` or a valid group index, i.e. lies in
`[0, numCorrelationParameterGroups)`. -/
def MappingInvariant (m : FourParameterCorrelationModel) : Prop :=
  ∀ x ∈ m.theGroupMapping, x = -1 ∨
    (0 ≤ x ∧ x < (getNumCorrelationParameterGroups m : ℤ))

/-- The spec's worked example: `construct(3, 2)`, then
`setGroup(0,0); setGroup(1,0); setGroup(2,1)`, then
`setGroupParameters(0, a=0.8, alpha=0.3, beta=1.0, tau=5.0)`. -/
noncomputable def exampleModel : FourParameterCorrelationModel :=
  (setCorrelationGroupParameters
    (setCorrelationParameterGroup
      (setCorrelationParameterGroup
        (setCorrelationParameterGroup (construct 3 2) 0 0).1
        1 0).1
      2 1).1
    0 ⟨0.8, 0.3, 1.0, 5.0⟩).1

/-- The closed-form curve value of the spec's worked example:
a=0.8, alpha=0.3, beta=1.0, tau=5.0 evaluated at deltaTime=5.0. -/
noncomputable def exampleRho : ℝ :=
  0.8 * (0.3 + ((1 - 0.3) * (1 + 1.0) / (1.0 + Real.exp (|(5 : ℝ)| / 5.0))))

/-! ### Unfolding lemmas: each operation as a plain conditional -/

/-- `getCorrelationParameterGroup` as a single conditional. -/
theorem getCorrelationParameterGroup_eq (m : FourParameterCorrelationModel)
    (i : ℕ) :
    getCorrelationParameterGroup m i =
      if m.theGroupMapping.length ≤ i then
        Except.error ⟨ErrorType.INDEX_OUT_OF_RANGE,
          "Sensor model parameter index is out of range.",
          String.append "csm::FourParameterCorrelationModel::" "getCorrelationParameterGroup"⟩
      else Except.ok (m.theGroupMapping.getD i 0) := by
  unfold getCorrelationParameterGroup checkSensorModelParameterIndex
  by_cases h : m.theGroupMapping.length ≤ i
  · rw [if_pos h, if_pos h]
  · rw [if_neg h, if_neg h]

/-- `setCorrelationParameterGroup` as a nested conditional. -/
theorem setCorrelationParameterGroup_eq (m : FourParameterCorrelationModel)
    (i g : ℕ) :
    setCorrelationParameterGroup m i g =
      if m.theGroupMapping.length ≤ i then
        (m, some ⟨ErrorType.INDEX_OUT_OF_RANGE,
          "Sensor model parameter index is out of range.",
          String.append "csm::FourParameterCorrelationModel::" "setCorrelationParameterGroup"⟩)
      else if m.theCorrParams.length ≤ g then
        (m, some ⟨ErrorType.INDEX_OUT_OF_RANGE,
          "Correlation parameter group index is out of range.",
          String.append "csm::FourParameterCorrelationModel::" "setCorrelationParameterGroup"⟩)
      else
        (⟨m.theGroupMapping.set i (g : ℤ), m.theCorrParams, m.theFormat⟩, none) := by
  unfold setCorrelationParameterGroup checkSensorModelParameterIndex checkParameterGroupIndex
  by_cases h1 : m.theGroupMapping.length ≤ i
  · rw [if_pos h1, if_pos h1]
  · rw [if_neg h1, if_neg h1]
    by_cases h2 : m.theCorrParams.length ≤ g
    · rw [if_pos h2, if_pos h2]
    · rw [if_neg h2, if_neg h2]

/-- `setCorrelationGroupParameters` as a nested conditional. -/
theorem setCorrelationGroupParameters_eq (m : FourParameterCorrelationModel)
    (g : ℕ) (p : Parameters) :
    setCorrelationGroupParameters m g p =
      if m.theCorrParams.length ≤ g then
        (m, some ⟨ErrorType.INDEX_OUT_OF_RANGE,
          "Correlation parameter group index is out of range.",
          String.append "csm::FourParameterCorrelationModel::" "setCorrelationGroupParameters"⟩)
      else if p.a < 0 ∨ p.a > 1 then (m, some boundsErrorA)
      else if p.alpha < 0 ∨ p.alpha > 1 then (m, some boundsErrorAlpha)
      else if p.beta < 0 ∨ p.beta > 10 then (m, some boundsErrorBeta)
      else if p.tau ≤ 0 then (m, some boundsErrorTau)
      else (⟨m.theGroupMapping, m.theCorrParams.set g p, m.theFormat⟩, none) := by
  unfold setCorrelationGroupParameters checkParameterGroupIndex
  by_cases h : m.theCorrParams.length ≤ g
  · rw [if_pos h, if_pos h]
  · rw [if_neg h, if_neg h]

/-- `getCorrelationGroupParameters` as a single conditional. -/
theorem getCorrelationGroupParameters_eq (m : FourParameterCorrelationModel)
    (g : ℕ) :
    getCorrelationGroupParameters m g =
      if m.theCorrParams.length ≤ g then
        Except.error ⟨ErrorType.INDEX_OUT_OF_RANGE,
          "Correlation parameter group index is out of range.",
          String.append "csm::FourParameterCorrelationModel::" "getCorrelationGroupParameters"⟩
      else Except.ok (m.theCorrParams.getD g defaultParameters) := by
  unfold getCorrelationGroupParameters checkParameterGroupIndex
  by_cases h : m.theCorrParams.length ≤ g
  · rw [if_pos h, if_pos h]
  · rw [if_neg h, if_neg h]

/-- `getCorrelationCoefficient` as a single conditional. -/
theorem getCorrelationCoefficient_eq (m : FourParameterCorrelationModel)
    (g : ℕ) (t : ℝ) :
    getCorrelationCoefficient m g t =
      if m.theCorrParams.length ≤ g then
        Except.error ⟨ErrorType.INDEX_OUT_OF_RANGE,
          "Correlation parameter group index is out of range.",
          String.append "csm::FourParameterCorrelationModel::" "getCorrelationCoefficient"⟩
      else
        Except.ok
          (let cp := m.theCorrParams.getD g defaultParameters
           let corrCoeff := cp.a * (cp.alpha + ((1 - cp.alpha) * (1 + cp.beta) /
                             (cp.beta + Real.exp (|t| / cp.tau))))
           if corrCoeff < -1 then -1 else if corrCoeff > 1 then 1 else corrCoeff) := by
  unfold getCorrelationCoefficient checkParameterGroupIndex
  by_cases h : m.theCorrParams.length ≤ g
  · rw [if_pos h, if_pos h]
  · rw [if_neg h, if_neg h]

/-! ### List helper lemmas -/

/-- Every position of a replicated list reads back the replicated value. -/
theorem getD_replicate_of_lt {α : Type} (a d : α) :
    ∀ (n i : ℕ), i < n → (List.replicate n a).getD i d = a := by
  intro n
  induction n with
  | zero => intro i h; exact absurd h (Nat.not_lt_zero i)
  | succ k ih =>
    intro i h
    cases i with
    | zero => simp [List.replicate]
    | succ j =>
      rw [List.replicate, List.getD_cons_succ]
      exact ih j (Nat.lt_of_succ_lt_succ h)

/-- Writing position `i` does not change what is read at `j ≠ i`. -/
theorem getD_set_of_ne {α : Type} (b d : α) :
    ∀ (l : List α) (i j : ℕ), j ≠ i → (l.set i b).getD j d = l.getD j d := by
  intro l
  induction l with
  | nil => intro i j _; simp
  | cons x xs ih =>
    intro i j h
    cases i with
    | zero =>
      cases j with
      | zero => exact absurd rfl h
      | succ jj => simp [List.set]
    | succ ii =>
      cases j with
      | zero => simp [List.set]
      | succ jj =>
        rw [List.set, List.getD_cons_succ, List.getD_cons_succ]
        exact ih ii jj (fun hc => h (by rw [hc]))

/-! ### The claims -/

/-- Claim C1 (code bug): the claim says `construct(n, m)` stores a
CurveParameters sequence of length `m`, so that
`numCorrelationParameterGroups()` returns `m`.  The constructor instead
sizes `theCorrParams` with its first argument: at the failing input
`construct 3 2`, `numCorrelationParameterGroups()` returns 3, not 2. -/
theorem C1_construct_group_count_bug :
    getNumSensorModelParameters (construct 3 2) = 3 ∧
    getNumCorrelationParameterGroups (construct 3 2) = 3 ∧ (3 : ℕ) ≠ 2 := by
  refine ⟨rfl, rfl, by decide⟩

/-- Claim C6: `getCorrelationCoefficient` depends on `deltaTime` only
through its absolute value; the result at `t` and at `-t` coincide (for
every group index, in particular every valid one). -/
theorem C6_time_symmetry (m : FourParameterCorrelationModel) (g : ℕ) (t : ℝ) :
    getCorrelationCoefficient m g t = getCorrelationCoefficient m g (-t) := by
  rw [getCorrelationCoefficient_eq, getCorrelationCoefficient_eq, abs_neg]

/-- Claim C8: in a freshly constructed model every valid parameter index
maps to the "unassigned" sentinel `-1`, a negative value (hence outside
the valid group-index range `[0, numCorrelationParameterGroups)`). -/
theorem C8_fresh_unassigned (n ng i : ℕ) (hi : i < n) :
    getCorrelationParameterGroup (construct n ng) i = Except.ok (-1) ∧
    ((-1 : ℤ) < 0) := by
  constructor
  · rw [getCorrelationParameterGroup_eq]
    have hlen : (construct n ng).theGroupMapping.length = n := by
      simp [construct]
    rw [if_neg (by rw [hlen]; exact Nat.not_le.mpr hi)]
    show Except.ok ((List.replicate n (-1 : ℤ)).getD i 0) = _
    rw [getD_replicate_of_lt _ _ n i hi]
  · decide

/-- Witness for C8 at `construct 2 2`, index 0. -/
theorem C8_fresh_unassigned_witness :
    (0 : ℕ) < 2 ∧
    (getCorrelationParameterGroup (construct 2 2) 0 = Except.ok (-1) ∧
     ((-1 : ℤ) < 0)) :=
  ⟨by decide, C8_fresh_unassigned 2 2 0 (by decide)⟩

/-- Claim C4: `setCorrelationGroupParameters` is all-or-nothing.  If the
call fails (any error: OutOfRange or InvalidBounds) the state is the
unchanged entry state; if it succeeds the stored CurveParameters list is
the entry list with exactly the indexed group replaced, validation having
happened before the single write. -/
theorem C4_setGroupParameters_atomic (m : FourParameterCorrelationModel)
    (g : ℕ) (p : Parameters) :
    (setCorrelationGroupParameters m g p).1 =
      if (setCorrelationGroupParameters m g p).2 = none then
        ⟨m.theGroupMapping, m.theCorrParams.set g p, m.theFormat⟩
      else m := by
  rw [setCorrelationGroupParameters_eq]
  split_ifs with h1 h2 h3 h4 h5 <;> simp_all

/-- Claim C2: for a valid group index and any real `deltaTime`, the
returned coefficient is exactly the spec's curve value clamped into
[-1, 1] (the code's if/else-if clamp equals `max (-1) (min 1 ·)`), and in
particular the result always lies in [-1, 1]. -/
theorem C2_coefficient_clamped (m : FourParameterCorrelationModel)
    (g : ℕ) (t : ℝ) (hg : g < getNumCorrelationParameterGroups m) :
    getCorrelationCoefficient m g t =
      Except.ok (spec_clamp (spec_rho (m.theCorrParams.getD g defaultParameters) t)) ∧
    (-1 : ℝ) ≤ spec_clamp (spec_rho (m.theCorrParams.getD g defaultParameters) t) ∧
    spec_clamp (spec_rho (m.theCorrParams.getD g defaultParameters) t) ≤ 1 := by
  have hg' : ¬ m.theCorrParams.length ≤ g := Nat.not_le.mpr hg
  refine ⟨?_, le_max_left _ _, max_le (by norm_num) (min_le_left _ _)⟩
  rw [getCorrelationCoefficient_eq, if_neg hg']
  show Except.ok _ = Except.ok _
  congr 1
  show (if spec_rho (m.theCorrParams.getD g defaultParameters) t < -1 then (-1 : ℝ)
        else if spec_rho (m.theCorrParams.getD g defaultParameters) t > 1 then 1
        else spec_rho (m.theCorrParams.getD g defaultParameters) t) = _
  unfold spec_clamp
  split_ifs with h1 h2
  · rw [min_eq_right (by linarith), max_eq_left (by linarith)]
  · rw [min_eq_left (by linarith), max_eq_right (by norm_num)]
  · rw [min_eq_right (by linarith), max_eq_right (by linarith)]

/-- Witness for C2 at `construct 1 1`, group 0, `deltaTime = 0`. -/
theorem C2_coefficient_clamped_witness :
    0 < getNumCorrelationParameterGroups (construct 1 1) ∧
    (getCorrelationCoefficient (construct 1 1) 0 0 =
       Except.ok (spec_clamp (spec_rho ((construct 1 1).theCorrParams.getD 0 defaultParameters) 0)) ∧
     (-1 : ℝ) ≤ spec_clamp (spec_rho ((construct 1 1).theCorrParams.getD 0 defaultParameters) 0) ∧
     spec_clamp (spec_rho ((construct 1 1).theCorrParams.getD 0 defaultParameters) 0) ≤ 1) :=
  ⟨by simp [getNumCorrelationParameterGroups, construct],
   C2_coefficient_clamped (construct 1 1) 0 0
     (by simp [getNumCorrelationParameterGroups, construct])⟩

/-- Claim C3: for a valid group index, `setCorrelationGroupParameters`
rejects with a BOUNDS error exactly when `a ∉ [0,1]`, or `alpha ∉ [0,1]`,
or `beta ∉ [0,10]`, or `tau ≤ 0`, checking in the order a, alpha, beta,
tau with the first violation winning (each with its own distinct error
value); boundary values are accepted because none of the strict
conditions holds for them. -/
theorem C3_setGroupParameters_bounds (m : FourParameterCorrelationModel)
    (g : ℕ) (a alpha beta tau : ℝ)
    (hg : g < getNumCorrelationParameterGroups m) :
    ((setCorrelationGroupParameters m g ⟨a, alpha, beta, tau⟩).2 =
      if a < 0 ∨ a > 1 then some boundsErrorA
      else if alpha < 0 ∨ alpha > 1 then some boundsErrorAlpha
      else if beta < 0 ∨ beta > 10 then some boundsErrorBeta
      else if tau ≤ 0 then some boundsErrorTau
      else none) ∧
    (isBoundsFailure (setCorrelationGroupParameters m g ⟨a, alpha, beta, tau⟩).2 = true ↔
      (a < 0 ∨ a > 1 ∨ alpha < 0 ∨ alpha > 1 ∨ beta < 0 ∨ beta > 10 ∨ tau ≤ 0)) := by
  have hg' : ¬ m.theCorrParams.length ≤ g := Nat.not_le.mpr hg
  rw [setCorrelationGroupParameters_eq, if_neg hg']
  constructor
  · split_ifs <;> rfl
  · split_ifs with h1 h2 h3 h4 <;>
      simp_all [isBoundsFailure, boundsErrorA, boundsErrorAlpha, boundsErrorBeta,
                boundsErrorTau] <;>
      tauto

/-- Witness for C3 at `construct 1 1`, group 0, with the boundary values
a = 1, alpha = 0, beta = 10, tau = 1 (all accepted). -/
theorem C3_setGroupParameters_bounds_witness :
    0 < getNumCorrelationParameterGroups (construct 1 1) ∧
    (((setCorrelationGroupParameters (construct 1 1) 0 ⟨1, 0, 10, 1⟩).2 =
      if (1 : ℝ) < 0 ∨ (1 : ℝ) > 1 then some boundsErrorA
      else if (0 : ℝ) < 0 ∨ (0 : ℝ) > 1 then some boundsErrorAlpha
      else if (10 : ℝ) < 0 ∨ (10 : ℝ) > 10 then some boundsErrorBeta
      else if (1 : ℝ) ≤ 0 then some boundsErrorTau
      else none) ∧
     (isBoundsFailure (setCorrelationGroupParameters (construct 1 1) 0 ⟨1, 0, 10, 1⟩).2 = true ↔
      ((1 : ℝ) < 0 ∨ (1 : ℝ) > 1 ∨ (0 : ℝ) < 0 ∨ (0 : ℝ) > 1 ∨
       (10 : ℝ) < 0 ∨ (10 : ℝ) > 10 ∨ (1 : ℝ) ≤ 0))) :=
  ⟨by simp [getNumCorrelationParameterGroups, construct],
   C3_setGroupParameters_bounds (construct 1 1) 0 1 0 10 1
     (by simp [getNumCorrelationParameterGroups, construct])⟩

/-- Claim C5: every operation taking an index rejects with an
OutOfRange error exactly when the index reaches the respective count
(`numSensorModelParameters` for parameter indices,
`numCorrelationParameterGroups` for group indices); `setGroup` checks
both of its indices.  In particular index = count - 1 is accepted and
any index ≥ count is rejected. -/
theorem C5_index_range_checks (m : FourParameterCorrelationModel)
    (i g : ℕ) (t : ℝ) (p : Parameters) :
    (isOutOfRangeResult (getCorrelationParameterGroup m i) = true ↔
      getNumSensorModelParameters m ≤ i) ∧
    (isOutOfRangeFailure (setCorrelationParameterGroup m i g).2 = true ↔
      (getNumSensorModelParameters m ≤ i ∨ getNumCorrelationParameterGroups m ≤ g)) ∧
    (isOutOfRangeResult (getCorrelationGroupParameters m g) = true ↔
      getNumCorrelationParameterGroups m ≤ g) ∧
    (isOutOfRangeFailure (setCorrelationGroupParameters m g p).2 = true ↔
      getNumCorrelationParameterGroups m ≤ g) ∧
    (isOutOfRangeResult (getCorrelationCoefficient m g t) = true ↔
      getNumCorrelationParameterGroups m ≤ g) := by
  unfold getNumSensorModelParameters getNumCorrelationParameterGroups
  refine ⟨?_, ?_, ?_, ?_, ?_⟩
  · rw [getCorrelationParameterGroup_eq]
    by_cases h : m.theGroupMapping.length ≤ i <;> simp [h, isOutOfRangeResult]
  · rw [setCorrelationParameterGroup_eq]
    by_cases h1 : m.theGroupMapping.length ≤ i
    · simp [h1, isOutOfRangeFailure]
    · by_cases h2 : m.theCorrParams.length ≤ g <;>
        simp [h1, h2, isOutOfRangeFailure]
  · rw [getCorrelationGroupParameters_eq]
    by_cases h : m.theCorrParams.length ≤ g <;> simp [h, isOutOfRangeResult]
  · rw [setCorrelationGroupParameters_eq]
    by_cases h : m.theCorrParams.length ≤ g
    · simp [h, isOutOfRangeFailure]
    · simp only [if_neg h]
      split_ifs <;>
        simp [h, isOutOfRangeFailure, boundsErrorA, boundsErrorAlpha,
              boundsErrorBeta, boundsErrorTau]
  · rw [getCorrelationCoefficient_eq]
    by_cases h : m.theCorrParams.length ≤ g <;> simp [h, isOutOfRangeResult]

/-- Claim C9: the mapping invariant is established by the constructor
(all entries `-1`) and preserved by both mutators — `setGroup` because it
validates its group index against the group count before storing it, and
`setGroupParameters` because it does not touch the mapping and keeps the
group count (`List.set` preserves length). -/
theorem C9_mapping_invariant (n ng : ℕ) (m : FourParameterCorrelationModel)
    (i g : ℕ) (p : Parameters) (h : MappingInvariant m) :
    MappingInvariant (construct n ng) ∧
    MappingInvariant (setCorrelationParameterGroup m i g).1 ∧
    MappingInvariant (setCorrelationGroupParameters m g p).1 := by
  refine ⟨?_, ?_, ?_⟩
  · intro x hx
    left
    exact List.eq_of_mem_replicate hx
  · rw [setCorrelationParameterGroup_eq]
    split_ifs with h1 h2
    · exact h
    · exact h
    · intro x hx
      rcases List.mem_or_eq_of_mem_set hx with hmem | heq
      · exact h x hmem
      · right
        refine ⟨by rw [heq]; exact Int.ofNat_nonneg g, ?_⟩
        rw [heq]
        exact_mod_cast Nat.not_le.mp h2
  · rw [setCorrelationGroupParameters_eq]
    split_ifs with h1 h2 h3 h4 h5
    · exact h
    · exact h
    · exact h
    · exact h
    · exact h
    · intro x hx
      rcases h x hx with hx1 | hx2
      · exact Or.inl hx1
      · right
        refine ⟨hx2.1, ?_⟩
        have : getNumCorrelationParameterGroups
            (⟨m.theGroupMapping, m.theCorrParams.set g p, m.theFormat⟩ :
              FourParameterCorrelationModel) =
            getNumCorrelationParameterGroups m := by
          simp [getNumCorrelationParameterGroups]
        rw [this]
        exact hx2.2

/-- Witness for C9: the invariant holds for `construct 2 2` and is
preserved through `setGroup 0 1` and `setGroupParameters 0 (1,1,1,1)`. -/
theorem C9_mapping_invariant_witness :
    MappingInvariant (construct 2 2) ∧
    (MappingInvariant (construct 5 4) ∧
     MappingInvariant (setCorrelationParameterGroup (construct 2 2) 0 1).1 ∧
     MappingInvariant (setCorrelationGroupParameters (construct 2 2) 1 ⟨1, 1, 1, 1⟩).1) := by
  have hinv : MappingInvariant (construct 2 2) := by
    intro x hx
    left
    exact List.eq_of_mem_replicate hx
  exact ⟨hinv, C9_mapping_invariant 5 4 (construct 2 2) 0 1 ⟨1, 1, 1, 1⟩ hinv⟩

/-- Claim C10: a successful `setGroup(paramIndex, groupIndex)` changes
only the mapping entry at `paramIndex`: the stored CurveParameters list
is unchanged, every mapping entry at `j ≠ paramIndex` is unchanged, and
both stored counts are unchanged. -/
theorem C10_setGroup_frame (m : FourParameterCorrelationModel)
    (i g j : ℕ) (hs : (setCorrelationParameterGroup m i g).2 = none)
    (hj : j ≠ i) :
    (setCorrelationParameterGroup m i g).1.theCorrParams = m.theCorrParams ∧
    (setCorrelationParameterGroup m i g).1.theGroupMapping.getD j 0 =
      m.theGroupMapping.getD j 0 ∧
    getNumSensorModelParameters (setCorrelationParameterGroup m i g).1 =
      getNumSensorModelParameters m ∧
    getNumCorrelationParameterGroups (setCorrelationParameterGroup m i g).1 =
      getNumCorrelationParameterGroups m := by
  rw [setCorrelationParameterGroup_eq] at hs ⊢
  split_ifs at hs ⊢ with h1 h2
  refine ⟨rfl, ?_, ?_, rfl⟩
  · exact getD_set_of_ne (g : ℤ) 0 m.theGroupMapping i j hj
  · show (m.theGroupMapping.set i (g : ℤ)).length = m.theGroupMapping.length
    simp

/-- Witness for C10 at `construct 2 1`: setting parameter 0 to group 0
succeeds and leaves entry 1, the parameter list, and both counts as they
were. -/
theorem C10_setGroup_frame_witness :
    (setCorrelationParameterGroup (construct 2 1) 0 0).2 = none ∧
    (1 : ℕ) ≠ 0 ∧
    ((setCorrelationParameterGroup (construct 2 1) 0 0).1.theCorrParams =
       (construct 2 1).theCorrParams ∧
     (setCorrelationParameterGroup (construct 2 1) 0 0).1.theGroupMapping.getD 1 0 =
       (construct 2 1).theGroupMapping.getD 1 0 ∧
     getNumSensorModelParameters (setCorrelationParameterGroup (construct 2 1) 0 0).1 =
       getNumSensorModelParameters (construct 2 1) ∧
     getNumCorrelationParameterGroups (setCorrelationParameterGroup (construct 2 1) 0 0).1 =
       getNumCorrelationParameterGroups (construct 2 1)) :=
  ⟨rfl, by decide, C10_setGroup_frame (construct 2 1) 0 0 1 rfl (by decide)⟩

/-- The example model evaluated: mapping `[0, 0, 1]`, group 0 holding the
example parameters (note `theCorrParams` has three entries, an artifact of
the constructor sizing bug, harmless to this scenario). -/
theorem exampleModel_eq :
    exampleModel =
      ⟨[0, 0, 1], [⟨0.8, 0.3, 1.0, 5.0⟩, defaultParameters, defaultParameters],
       "Four-parameter model (A, alpha, beta, tau)"⟩ := by
  unfold exampleModel
  rw [show (setCorrelationParameterGroup
        (setCorrelationParameterGroup
          (setCorrelationParameterGroup (construct 3 2) 0 0).1
          1 0).1
        2 1).1 =
      (⟨[0, 0, 1], [defaultParameters, defaultParameters, defaultParameters],
        "Four-parameter model (A, alpha, beta, tau)"⟩ :
        FourParameterCorrelationModel) from rfl]
  rw [setCorrelationGroupParameters_eq]
  norm_num [List.set]

/-- The closed-form value lies strictly between 0.54 and 0.55. -/
theorem exampleRho_bounds : 0.54 < exampleRho ∧ exampleRho < 0.55 := by
  have h5 : |(5 : ℝ)| = 5 := abs_of_pos (by norm_num)
  have harg : |(5 : ℝ)| / 5.0 = 1 := by
    rw [h5]
    norm_num
  have he1 : (2.7182818283 : ℝ) < Real.exp 1 := Real.exp_one_gt_d9
  have he2 : Real.exp 1 < 2.7182818286 := Real.exp_one_lt_d9
  have hdpos : (0 : ℝ) < 1.0 + Real.exp 1 := by positivity
  have hq1 : (0.3765 : ℝ) < (1 - 0.3) * (1 + 1.0) / (1.0 + Real.exp 1) := by
    rw [lt_div_iff₀ hdpos]
    nlinarith
  have hq2 : (1 - 0.3) * (1 + 1.0) / (1.0 + Real.exp 1) < (0.3766 : ℝ) := by
    rw [div_lt_iff₀ hdpos]
    nlinarith
  unfold exampleRho
  rw [harg]
  constructor <;> nlinarith

/-- After the example setup, the coefficient call returns exactly the
unclamped closed-form value: the clamp tests fail because the value lies
strictly inside (-1, 1). -/
theorem exampleModel_coefficient :
    getCorrelationCoefficient exampleModel 0 5 = Except.ok exampleRho := by
  have hb := exampleRho_bounds
  have hrho : (4 / 5 * (3 / 10 + 7 / 5 / (1 + Real.exp 1)) : ℝ) = exampleRho := by
    unfold exampleRho
    rw [show |(5 : ℝ)| = 5 from abs_of_pos (by norm_num)]
    norm_num
  rw [exampleModel_eq, getCorrelationCoefficient_eq]
  norm_num
  rw [hrho, if_neg (by linarith [hb.1]), if_neg (by linarith [hb.2])]

/-- Claim C7 (counterexample): the spec's example calls out the value
"approximately 0.729"; the coefficient the code returns for this scenario
is strictly below 0.6 (it is about 0.541), so the stated approximation is
wrong. -/
theorem C7_counterexample :
    getCorrelationCoefficient exampleModel 0 5 = Except.ok exampleRho ∧
    exampleRho < 0.6 := by
  exact ⟨exampleModel_coefficient, by linarith [exampleRho_bounds.2]⟩

/-- Claim C7 (amended): after the example setup, the call returns exactly
the closed-form curve value at deltaTime = 5.0, which is approximately
0.541 (strictly between 0.54 and 0.55), with the clamp not engaged. -/
theorem C7_amended_value :
    getCorrelationCoefficient exampleModel 0 5 = Except.ok exampleRho ∧
    0.54 < exampleRho ∧ exampleRho < 0.55 ∧
    (-1 : ℝ) < exampleRho ∧ exampleRho < 1 := by
  have hb := exampleRho_bounds
  exact ⟨exampleModel_coefficient, hb.1, hb.2, by linarith [hb.1], by linarith [hb.2]⟩

end csm
